import Mathlib

/-!
Verification of the bit versioning/merge command layer.

This file shallowly embeds the command-boundary logic of the repository:
the merge command (`MergeCmd.report` and the `mergeReport` renderer) and
the tag command (`TagCmd.report` with its pre-flight validation and flag
precedence resolution).  Pure functions of the source are translated to
Lean functions; JavaScript truthiness of `string | boolean | undefined`
option values is made explicit.  External collaborators that are not part
of the repository sources (the merge/tag engines, the `getMergeStrategy`
helper, a few display constants) are modelled from the specification and
marked as such in their doc comments.
-/

/-- Error value thrown by the commands; mirrors `BitError` from
`@teambit/bit-error` (carries only a message). -/
structure BitError where
  message : String
deriving DecidableEq, Repr

/-- Component identity as used by the report layer: a full name
(scope + name rendered as one string) and an optional version.
Mirrors the content of `BitId` / `ComponentID` relevant to the
embedded code: `toString` renders name plus version,
`toStringWithoutVersion` renders the name alone. -/
structure BitId where
  name : String
  version : Option String
deriving DecidableEq, Repr

/-- Rendering of a `BitId` with its version, mirroring `id.toString()`. -/
def bitIdToString (b : BitId) : String :=
  match b.version with
  | some v => b.name ++ "@" ++ v
  | none => b.name

/-- Value of a CLI option whose TypeScript type is `string | boolean`
(undefined when not passed, `flag` for boolean true, `str` for a string
argument). -/
inductive StrBool where
  | undef
  | flag
  | str (s : String)
deriving DecidableEq, Repr

/-- JavaScript truthiness of a `string | boolean | undefined` value:
`undefined` and the empty string are falsy. -/
def StrBool.truthy : StrBool → Bool
  | .undef => false
  | .flag => true
  | .str s => s != ""

/-- JavaScript truthiness of an optional string. -/
def optStrTruthy : Option String → Bool
  | some s => s != ""
  | none => false

/-- The chalk terminal-styling functions are external to the repository and
do not change the textual content of their argument, only its color; each
one is therefore modelled as the identity on strings. -/
def chalkBold (s : String) : String := s

/-- Identity model of `chalk.underline`; see `chalkBold`. -/
def chalkUnderline (s : String) : String := s

/-- Identity model of `chalk.green`; see `chalkBold`. -/
def chalkGreen (s : String) : String := s

/-- Identity model of `chalk.yellow`; see `chalkBold`. -/
def chalkYellow (s : String) : String := s

/-- Identity model of `chalk.cyan`; see `chalkBold`. -/
def chalkCyan (s : String) : String := s

/-- Identity model of `chalk.white`; see `chalkBold`. -/
def chalkWhite (s : String) : String := s

/-- Identity model of `chalk.bold.underline`; see `chalkBold`. -/
def chalkBoldUnderline (s : String) : String := s

/-- Identity model of the dynamic `chalk[color]` lookup used by
`getFailureOutput` (the color name is computed at run time); see
`chalkBold`. -/
def chalkColor (color : String) (s : String) : String := s

/-- Modelled from the spec: per-file merge outcome classification
(`FileStatus` is imported from `@teambit/legacy/.../merge-version`, which
is not under src/).  Spec section 4.3 lists the statuses
unchanged, added, modified, removed and manual (conflict). -/
inductive FileStatus where
  | unchanged
  | added
  | modified
  | removed
  | manual
deriving DecidableEq, Repr

/-- Display string of a `FileStatus` (how the enum value prints inside the
report lines). -/
def fileStatusStr : FileStatus → String
  | .unchanged => "unchanged"
  | .added => "added"
  | .modified => "modified"
  | .removed => "removed"
  | .manual => "CONFLICT"

/-- Per-component merge success record, mirroring `ApplyVersionResult`:
a component id and the per-file statuses (an ordered key-value listing,
as `Object.keys` iteration order). -/
structure ApplyVersionResult where
  id : BitId
  filesStatus : List (String × FileStatus)
deriving DecidableEq, Repr

/-- Per-component merge failure record carried inside the batch result:
`id`, `failureMessage` and the `unchangedLegitimately` flag. -/
structure FailedComponent where
  id : BitId
  failureMessage : String
  unchangedLegitimately : Bool
deriving DecidableEq, Repr

/-- One auto-snapped/auto-tagged entry: the bumped component and the
component that triggered the bump. -/
structure AutoTagEntry where
  component : BitId
  triggeredBy : BitId
deriving DecidableEq, Repr

/-- Result of the snap performed after a successful merge, mirroring
`mergeSnapResults` (`snappedComponents` and `autoSnappedResults`). -/
structure MergeSnapResults where
  snappedComponents : List BitId
  autoSnappedResults : List AutoTagEntry
deriving DecidableEq, Repr

/-- Config-merge outcome per component, mirroring `ConfigMergeResult`
as consumed by the report (`compIdStr` and `hasConflicts()`). -/
structure ConfigMergeResult where
  compIdStr : String
  hasConflicts : Bool
deriving DecidableEq, Repr

/-- Batch merge result, mirroring the fields of `ApplyVersionResults`
destructured by `MergeCmd.report` and `mergeReport`.  Optional fields are
`Option`s; note that in JavaScript a present-but-empty array is truthy,
which the `Option`/`List` split preserves. -/
structure ApplyVersionResults where
  components : Option (List ApplyVersionResult)
  failedComponents : Option (List FailedComponent)
  removedComponents : Option (List BitId)
  version : Option String
  resolvedComponents : Option (List BitId)
  abortedComponents : Option (List BitId)
  mergeSnapResults : Option MergeSnapResults
  mergeSnapError : Option BitError
  leftUnresolvedConflicts : Option Bool
  workspaceDepsUpdates : Option (List (String × String × String))
deriving DecidableEq, Repr

/-- Modelled from the spec: the constant `AUTO_SNAPPED_MSG` is imported
from `@teambit/legacy/dist/constants`, not under src/; it is an opaque
display label whose exact text is immaterial to the claims. -/
def AUTO_SNAPPED_MSG : String := "auto-snapped dependents"

/-- Modelled from the spec: the constant `MergeConfigFilename` is imported
from `@teambit/legacy/dist/constants`, not under src/; opaque file name. -/
def MergeConfigFilename : String := "merge-conflicts"

/-- Embedding of `applyVersionReport` from the merge command module:
renders each merged component with its per-file statuses, flagging
conflicted files. -/
def applyVersionReport (components : List ApplyVersionResult) (addName : Bool) (showVersion : Bool) : String :=
  let tab := if addName then "\t" else ""
  String.intercalate "\n\n" (components.map (fun component =>
    let name := if showVersion then bitIdToString component.id else component.id.name
    let files := String.intercalate "\n" (component.filesStatus.map (fun fs =>
      let note := if fs.2 == FileStatus.manual then
          chalkWhite "automatic merge failed. please fix conflicts manually and then run \"bit install\" and \"bit compile\""
        else ""
      tab ++ fileStatusStr fs.2 ++ " " ++ chalkBold fs.1 ++ " " ++ note))
    (if addName then name else "") ++ "\n" ++ chalkCyan files))

/-- Embedding of `conflictSummaryReport`: lists only the conflicted
(manual) files of each component, skipping components with none. -/
def conflictSummaryReport (components : List ApplyVersionResult) : String :=
  String.intercalate "\n" (components.filterMap (fun component =>
    let files := component.filesStatus.filterMap (fun fs =>
      if fs.2 == FileStatus.manual then some ("\t" ++ fileStatusStr fs.2 ++ " " ++ chalkBold fs.1)
      else none)
    if files.isEmpty then none
    else some (component.id.name ++ "\n" ++ chalkCyan (String.intercalate "\n" files))))

/-- Embedding of `getSuccessOutput` inside `mergeReport`: empty unless
there are merged components. -/
def getSuccessOutput (components : Option (List ApplyVersionResult)) (version : Option String) : String :=
  match components with
  | none => ""
  | some cs =>
    if cs.isEmpty then ""
    else
      let title := "successfully merged components" ++
        (if optStrTruthy version then "from version " ++ chalkBold (version.getD "") else "") ++ "\n"
      chalkUnderline title ++ chalkGreen (applyVersionReport cs true false)

/-- Embedding of `getConflictSummary` inside `mergeReport`. -/
def getConflictSummary (components : Option (List ApplyVersionResult)) (leftUnresolvedConflicts : Option Bool) : String :=
  match components with
  | none => ""
  | some cs =>
    if cs.isEmpty || !(leftUnresolvedConflicts == some true) then ""
    else
      chalkUnderline "\n\nfiles with conflicts summary\n" ++ conflictSummaryReport cs ++
        chalkYellow "\n\nthe merge process was not completed due to the conflicts above. fix them manually and then run \"bit install\".\nonce ready, snap/tag the components to complete the merge."

/-- Embedding of `getConfigMergeConflictSummary` inside `mergeReport`. -/
def getConfigMergeConflictSummary (configMergeResults : Option (List ConfigMergeResult)) : String :=
  let configMergeWithConflicts := (configMergeResults.getD []).filter (fun c => c.hasConflicts)
  if configMergeWithConflicts.isEmpty then ""
  else
    let comps := String.intercalate "\n" (configMergeWithConflicts.map (fun c => c.compIdStr))
    chalkUnderline "\n\ncomponents with config-merge conflicts\n" ++ comps ++
      chalkYellow ("\nconflicts were found while trying to merge the config. fix them manually by editing the " ++ MergeConfigFilename ++ " file in the workspace root.\nonce ready, snap/tag the components to complete the merge.")

/-- Rendering of the snapped-components listing inside `getSnapsOutput`
(`outputComponents` closure); id equality up to scope and version
(`searchWithoutScopeAndVersion`) is modelled as name equality. -/
def outputSnappedComponents (snapped : List BitId) (autoSnapped : List AutoTagEntry) : String :=
  String.intercalate "\n" (snapped.map (fun component =>
    let base := "     > " ++ bitIdToString component
    let autoTag := autoSnapped.filter (fun r => r.triggeredBy.name == component.name)
    if autoTag.isEmpty then base
    else base ++ "\n       " ++ AUTO_SNAPPED_MSG ++ ": " ++
      String.intercalate ", " (autoTag.map (fun a => bitIdToString a.component))))

/-- Embedding of `getSnapsOutput` inside `mergeReport`: a snap error takes
priority, otherwise the snapped components are listed. -/
def getSnapsOutput (mergeSnapResults : Option MergeSnapResults) (mergeSnapError : Option BitError) : String :=
  match mergeSnapError with
  | some e =>
    "\n" ++ chalkBold "snapping the merged components had failed with the following error, please fix the issues and snap manually" ++
      "\n" ++ e.message ++ "\n"
  | none =>
    match mergeSnapResults with
    | none => ""
    | some r =>
      "\n" ++ chalkUnderline "merge-snapped components" ++ "\n(" ++
        "components that snapped as a result of the merge" ++ ")\n" ++
        outputSnappedComponents r.snappedComponents r.autoSnappedResults ++ "\n"

/-- Embedding of `getWorkspaceDepsOutput` inside `mergeReport`. -/
def getWorkspaceDepsOutput (workspaceDepsUpdates : Option (List (String × String × String))) : String :=
  match workspaceDepsUpdates with
  | none => ""
  | some updates =>
    let title := "\nworkspace.jsonc has been updated with the following dependencies"
    let body := String.intercalate "\n" (updates.map (fun u =>
      "  " ++ u.1 ++ ": " ++ u.2.1 ++ " => " ++ u.2.2))
    "\n" ++ chalkUnderline title ++ "\n" ++ body ++ "\n\n"

/-- Text of one failure listing entry (the string built for a failed
component when it is not filtered out): bold id, dash, colored message
(white when legitimately unchanged, red otherwise). -/
def failLineText (f : FailedComponent) : String :=
  chalkBold (bitIdToString f.id) ++ " - " ++
    chalkColor (if f.unchangedLegitimately then "white" else "red") f.failureMessage

/-- One entry of the failure listing as produced inside
`getFailureOutput`: `null` (here `none`) when the component is
legitimately unchanged and verbose output was not requested. -/
def failureLine (verbose : Bool) (f : FailedComponent) : Option String :=
  if !verbose && f.unchangedLegitimately then none
  else some (failLineText f)

/-- The compacted failure listing (`compact(failedComponents.map(...))`). -/
def failureLines (verbose : Bool) (failedComponents : List FailedComponent) : List String :=
  (failedComponents.map (failureLine verbose)).filterMap id

/-- Count-only line shown when every failure was legitimate and verbose
output was not requested. -/
def legitSkipLine (n : Nat) : String :=
  chalkBold ("\nthe merge has been skipped on " ++ toString n ++ " component(s) legitimately") ++
    "\n(use --verbose to list them next time)"

/-- Embedding of `getFailureOutput` inside `mergeReport`: skips the section
when there are no failures; hides legitimately-unchanged components unless
verbose, falling back to a count-only line when that hides everything. -/
def getFailureOutput (verbose : Bool) (failedComponents : List FailedComponent) : String :=
  if failedComponents.isEmpty then ""
  else
    let body := String.intercalate "\n" (failureLines verbose failedComponents)
    if body == "" then legitSkipLine failedComponents.length
    else
      "\n" ++ chalkUnderline "\nthe merge has been skipped on the following component(s)" ++
        "\n" ++ body ++ "\n\n"

/-- Embedding of `getRemovedOutput`. -/
def getRemovedOutput (removedComponents : Option (List BitId)) : String :=
  if (removedComponents.getD []).isEmpty then ""
  else
    let rs := removedComponents.getD []
    "\n\n" ++ chalkUnderline ("the following " ++ toString rs.length ++ " component(s) have been removed") ++
      "\n" ++ String.intercalate "\n" (rs.map bitIdToString) ++ "\n\n"

/-- Number of legitimately-unchanged components counted by the merge
summary (`failedComponents?.filter((f) => f.unchangedLegitimately).length`). -/
def totalUnchanged (failedComponents : List FailedComponent) : Nat :=
  (failedComponents.filter (fun f => f.unchangedLegitimately)).length

/-- Number of genuinely failed components counted by the merge summary
(`failedComponents?.filter((f) => !f.unchangedLegitimately).length`). -/
def totalFailed (failedComponents : List FailedComponent) : Nat :=
  (failedComponents.filter (fun f => !f.unchangedLegitimately)).length

/-- Embedding of `getSummary` inside `mergeReport`: totals of merged,
legitimately-unchanged, failed, snapped and removed components.  Note it
takes no verbosity argument. -/
def getSummary (components : Option (List ApplyVersionResult))
    (failedComponents : Option (List FailedComponent))
    (mergeSnapResults : Option MergeSnapResults)
    (removedComponents : Option (List BitId)) : String :=
  let merged := (components.getD []).length
  let unchangedLegitimately := totalUnchanged (failedComponents.getD [])
  let failedToMerge := totalFailed (failedComponents.getD [])
  let autoSnapped := match mergeSnapResults with
    | some r => r.snappedComponents.length + r.autoSnappedResults.length
    | none => 0
  "\n\n" ++ chalkBoldUnderline "Merge Summary" ++
    "\nTotal Merged: " ++ chalkBold (toString merged) ++
    "\nTotal Unchanged: " ++ chalkBold (toString unchangedLegitimately) ++
    "\nTotal Failed: " ++ chalkBold (toString failedToMerge) ++
    "\nTotal Snapped: " ++ chalkBold (toString autoSnapped) ++
    "\nTotal Removed: " ++ chalkBold (toString (removedComponents.getD []).length)

/-- Arguments of the `mergeReport` renderer (the fields it destructures). -/
structure MergeReportArgs where
  components : Option (List ApplyVersionResult)
  failedComponents : Option (List FailedComponent)
  removedComponents : Option (List BitId)
  version : Option String
  mergeSnapResults : Option MergeSnapResults
  mergeSnapError : Option BitError
  leftUnresolvedConflicts : Option Bool
  verbose : Bool
  configMergeResults : Option (List ConfigMergeResult)
  workspaceDepsUpdates : Option (List (String × String × String))
deriving DecidableEq, Repr

/-- Embedding of the `mergeReport` function: concatenation of the section
renderers in source order. -/
def mergeReport (a : MergeReportArgs) : String :=
  getSuccessOutput a.components a.version ++
  getFailureOutput a.verbose (a.failedComponents.getD []) ++
  getRemovedOutput a.removedComponents ++
  getSnapsOutput a.mergeSnapResults a.mergeSnapError ++
  getWorkspaceDepsOutput a.workspaceDepsUpdates ++
  getConfigMergeConflictSummary a.configMergeResults ++
  getConflictSummary a.components a.leftUnresolvedConflicts ++
  getSummary a.components a.failedComponents a.mergeSnapResults a.removedComponents

/-- Merge resolution strategy: which side wins conflicting file changes,
or leave conflicts for manual resolution. -/
inductive MergeStrategy where
  | ours
  | theirs
  | manual
deriving DecidableEq, Repr

/-- Modelled from the spec: `getMergeStrategy` is imported from
`@teambit/legacy/dist/consumer/versions-ops/merge-version`, which is not
under src/.  Spec section 4.3: the strategies ours, theirs and manual are
mutually exclusive (selecting more than one side is rejected), and manual
is the default when no side is specified. -/
def getMergeStrategy (ours theirs manual : Bool) : Except BitError MergeStrategy :=
  if ours && theirs || ours && manual || theirs && manual then
    .error ⟨"please choose only one of the following: ours, theirs or manual"⟩
  else if ours then .ok .ours
  else if theirs then .ok .theirs
  else .ok .manual

/-- CLI flags of the merge command as destructured by `MergeCmd.report`
(with their source defaults; `message` is undefined unless passed). -/
structure MergeFlags where
  ours : Bool
  theirs : Bool
  manual : Bool
  abort : Bool
  resolve : Bool
  build : Bool
  noSnap : Bool
  verbose : Bool
  message : Option String
  skipDependencyInstallation : Bool
deriving DecidableEq, Repr

/-- Arguments passed to `this.merging.merge(...)` — the merge engine
invocation assembled by `MergeCmd.report` after validation. -/
structure MergeEngineArgs where
  ids : List String
  mergeStrategy : MergeStrategy
  abort : Bool
  resolve : Bool
  noSnap : Bool
  message : Option String
  build : Bool
  skipDependencyInstallation : Bool
deriving DecidableEq, Repr

/-- Pre-flight part of `MergeCmd.report` (everything before the engine
call): the build flag is forced on unless the BUILD_ON_CI feature is
enabled, the strategy is resolved, and the abort/resolve and
noSnap/message flag exclusions are enforced.  An error here is thrown
before the merge engine is invoked, so no state changes. -/
def mergeCmdPreflight (buildOnCi : Bool) (ids : List String) (f : MergeFlags) : Except BitError MergeEngineArgs :=
  let build := if buildOnCi then f.build else true
  match getMergeStrategy f.ours f.theirs f.manual with
  | .error e => .error e
  | .ok strat =>
    if f.abort && f.resolve then
      .error ⟨"unable to use \"abort\" and \"resolve\" flags together"⟩
    else if f.noSnap && optStrTruthy f.message then
      .error ⟨"unable to use \"noSnap\" and \"message\" flags together"⟩
    else
      .ok ⟨ids, strat, f.abort, f.resolve, f.noSnap, f.message, build, f.skipDependencyInstallation⟩

/-- Rendering part of `MergeCmd.report` after the engine returned: the
resolved / aborted branches short-circuit, otherwise `mergeReport` renders
the batch result.  Every branch returns a string — per-component failures
inside the result are never re-raised. -/
def mergeCmdRender (verbose : Bool) (r : ApplyVersionResults) : String :=
  match r.resolvedComponents with
  | some cs =>
    chalkUnderline "successfully resolved component(s)\n" ++
      chalkGreen (String.intercalate "\n" (cs.map (fun c => c.name)))
  | none =>
    match r.abortedComponents with
    | some cs =>
      chalkUnderline "successfully aborted the merge of the following component(s)\n" ++
        chalkGreen (String.intercalate "\n" (cs.map (fun c => c.name)))
    | none =>
      mergeReport
        { components := r.components
          failedComponents := r.failedComponents
          removedComponents := none
          version := r.version
          mergeSnapResults := r.mergeSnapResults
          mergeSnapError := r.mergeSnapError
          leftUnresolvedConflicts := none
          verbose := verbose
          configMergeResults := none
          workspaceDepsUpdates := none }

/-- Embedding of `MergeCmd.report`: pre-flight validation, then the merge
engine (passed as a function, since `MergingMain.merge` is an external
collaborator of this command), then rendering. -/
def mergeCmdReport (buildOnCi : Bool) (engine : MergeEngineArgs → ApplyVersionResults)
    (ids : List String) (f : MergeFlags) : Except BitError String :=
  match mergeCmdPreflight buildOnCi ids f with
  | .error e => .error e
  | .ok args => .ok (mergeCmdRender f.verbose (engine args))

/-- Modelled from the spec: the per-component outcome of the batch merge
performed by `MergingMain.merge` (not under src/).  Spec section 4.3: a
component either merges successfully, has nothing to merge (a legitimate
non-change, not an error), or fails with a message. -/
inductive ComponentMergeOutcome where
  | merged (result : ApplyVersionResult)
  | nothingToMerge (id : BitId)
  | failed (id : BitId) (failureMessage : String)
deriving DecidableEq, Repr

/-- Modelled from the spec: the failure message recorded for a component
that simply had nothing to merge. -/
def nothingToMergeMessage : String := "component is unchanged, nothing to merge"

/-- Failure record contributed by one merge outcome: none for a success,
a record with `unchangedLegitimately := true` for a legitimate non-change
and with `false` for a genuine failure. -/
def mergeOutcomeFailure : ComponentMergeOutcome → Option FailedComponent
  | .merged _ => none
  | .nothingToMerge id => some ⟨id, nothingToMergeMessage, true⟩
  | .failed id msg => some ⟨id, msg, false⟩

/-- Success record contributed by one merge outcome. -/
def mergeOutcomeSuccess : ComponentMergeOutcome → Option ApplyVersionResult
  | .merged r => some r
  | _ => none

/-- Modelled from the spec: the batch merge of `MergingMain.merge` (not
under src/).  Spec sections 4.3 and 7: per-component failures are
collected into `failedComponents` with a `failureMessage` and an
`unchangedLegitimately` flag rather than aborting the batch; successes
are returned alongside in the same structured result (the function is
total — it never raises for a per-component failure). -/
def batchMerge (outcomes : List ComponentMergeOutcome) : ApplyVersionResults :=
  { components := some (outcomes.filterMap mergeOutcomeSuccess)
    failedComponents := some (outcomes.filterMap mergeOutcomeFailure)
    removedComponents := none
    version := none
    resolvedComponents := none
    abortedComponents := none
    mergeSnapResults := none
    mergeSnapError := none
    leftUnresolvedConflicts := none
    workspaceDepsUpdates := none }

/-- The valid release types of the tag command (`RELEASE_TYPES` constant
in tag-cmd.ts). -/
def RELEASE_TYPES : List String :=
  ["major", "premajor", "minor", "preminor", "patch", "prepatch", "prerelease"]

/-- Modelled from the spec: the constant `DEFAULT_BIT_RELEASE_TYPE` is
imported from `@teambit/legacy/dist/constants`, which is not under src/;
the spec states that with no bump flag given the release type defaults
to patch. -/
def DEFAULT_BIT_RELEASE_TYPE : String := "patch"

/-- Modelled from the spec: the constant `NOTHING_TO_TAG_MSG` is imported
from `@teambit/legacy/dist/api/consumer/lib/tag`, not under src/; it is
the distinct message reported when there is nothing to tag. -/
def NOTHING_TO_TAG_MSG : String := "nothing to tag"

/-- Modelled from the spec: the constant `AUTO_TAGGED_MSG` is imported
from `@teambit/legacy/dist/api/consumer/lib/tag`, not under src/; opaque
display label. -/
def AUTO_TAGGED_MSG : String := "auto-tagged dependents"

/-- CLI flags of the tag command as destructured by `TagCmd.report`, with
the source defaults made explicit.  Options whose TypeScript type is
`string | boolean` are `StrBool`; optional strings are `Option String`.
`editor` defaults to the empty string in the source. -/
structure TagFlags where
  message : String
  ver : Option String
  all : StrBool
  editor : StrBool
  snapped : Bool
  unmerged : Bool
  patch : Bool
  minor : Bool
  major : Bool
  preRelease : StrBool
  increment : Option String
  prereleaseId : Option String
  force : Bool
  ignoreUnresolvedDependencies : Option Bool
  ignoreIssues : StrBool
  ignoreNewestVersion : Bool
  skipTests : Bool
  skipAutoTag : Bool
  scope : StrBool
  unmodified : Bool
  build : Option Bool
  soft : Bool
  persist : Bool
  disableDeployPipeline : Bool
  disableTagPipeline : Bool
  forceDeploy : Bool
  incrementBy : Nat
deriving DecidableEq, Repr

/-- Number of explicit bump flags set simultaneously — the length of
`[patch, minor, major, preRelease].filter((x) => x)`. -/
def countReleaseFlags (f : TagFlags) : Nat :=
  (if f.patch then 1 else 0) + (if f.minor then 1 else 0) +
    (if f.major then 1 else 0) + (if f.preRelease.truthy then 1 else 0)

/-- Embedding of the `getReleaseType` closure of `TagCmd.report`: an
explicit `increment` wins (but must be a valid release type), then the
sugar flags major/minor/patch/pre-release, then the default. -/
def getReleaseTypeOf (f : TagFlags) : Except BitError String :=
  if optStrTruthy f.increment then
    let inc := f.increment.getD ""
    if inc ∈ RELEASE_TYPES then .ok inc
    else
      .error ⟨"invalid increment-level \"" ++ inc ++
        "\".\n  semver allows the following options only: major, premajor, minor, preminor, patch, prepatch, prerelease"⟩
  else if f.major then .ok "major"
  else if f.minor then .ok "minor"
  else if f.patch then .ok "patch"
  else if f.preRelease.truthy then .ok "prerelease"
  else .ok DEFAULT_BIT_RELEASE_TYPE

/-- Embedding of the `getPreReleaseId` closure of `TagCmd.report`: the
explicit `--prerelease-id` wins; otherwise a string value of the
`--pre-release` sugar flag is used. -/
def getPreReleaseIdOf (f : TagFlags) : Option String :=
  if optStrTruthy f.prereleaseId then f.prereleaseId
  else
    match f.preRelease with
    | .str s => if s != "" then some s else none
    | _ => none

/-- Release type the invocation resolves to by the precedence of
`getReleaseType` (explicit increment level, else sugar flag, else
default), ignoring validation.  Used to state claims about invocations
whose release type is or is not prerelease-capable. -/
def nominalReleaseType (f : TagFlags) : String :=
  if optStrTruthy f.increment then f.increment.getD ""
  else if f.major then "major"
  else if f.minor then "minor"
  else if f.patch then "patch"
  else if f.preRelease.truthy then "prerelease"
  else DEFAULT_BIT_RELEASE_TYPE

/-- The prerelease-capable release types named by the error message of the
prerelease-id pre-flight check. -/
def PRERELEASE_CAPABLE : List String := ["premajor", "preminor", "prepatch", "prerelease"]

/-- Resolution of the explicit version through the deprecated aliases in
`TagCmd.report`: a string value of the deprecated `--all` flag becomes the
explicit version, then a string value of the deprecated `--scope` flag
overrides it (the source mutates `ver` in that order). -/
def resolvedVersion (f : TagFlags) : Option String :=
  let ver1 := if f.all.truthy then
      (match f.all with | .str s => some s | _ => f.ver)
    else f.ver
  if f.scope.truthy then
    (match f.scope with | .str s => some s | _ => ver1)
  else ver1

/-- Resolution of the unmodified flag through the deprecated aliases in
`TagCmd.report`: the deprecated `--scope` flag sets unmodified, and the
deprecated `--force` flag sets unmodified when patterns were given. -/
def resolvedUnmodified (patterns : List String) (f : TagFlags) : Bool :=
  let unmodified1 := if f.scope.truthy then true else f.unmodified
  if f.force && !patterns.isEmpty then true else unmodified1

/-- Validated configuration struct handed to `this.snapping.tag(...)` —
the `params` object assembled by `TagCmd.report`. -/
structure TagParams where
  ids : List String
  snapped : Bool
  unmerged : Bool
  editor : StrBool
  message : String
  releaseType : String
  preReleaseId : Option String
  ignoreIssues : StrBool
  ignoreNewestVersion : Bool
  skipTests : Bool
  skipAutoTag : Bool
  build : Option Bool
  soft : Bool
  persist : Bool
  unmodified : Bool
  disableTagAndSnapPipelines : Bool
  forceDeploy : Bool
  incrementBy : Nat
  version : Option String
deriving DecidableEq, Repr

/-- Pre-flight part of `TagCmd.report` (everything before the engine
call), in source order: removed/misused flag checks, deprecated-alias
resolution (`--all`/`--scope` string becomes the explicit version,
`--scope` sets unmodified, `--force` with patterns sets unmodified), the
prerelease-id/increment compatibility check, the conflicting-bump-flags
check, and release-type resolution.  An error here is thrown before
`this.snapping.tag` is invoked, so no partial state is left. -/
def tagCmdPreflight (patterns : List String) (f : TagFlags) : Except BitError TagParams :=
  if f.ignoreUnresolvedDependencies.isSome then
    .error ⟨"--ignore-unresolved-dependencies has been removed, please use --ignore-issues instead"⟩
  else if f.ignoreIssues == StrBool.flag then
    .error ⟨"--ignore-issues expects issues to be ignored, please run \"bit tag -h\" for the issues list"⟩
  else
    if optStrTruthy f.prereleaseId &&
        (!optStrTruthy f.increment || f.increment == some "major" ||
          f.increment == some "minor" || f.increment == some "patch") then
      .error ⟨"--prerelease-id should be entered along with --increment flag, while --increment must be one of the following: [prepatch, prerelease, preminor, premajor]"⟩
    else if countReleaseFlags f > 1 then
      .error ⟨"you can use only one of the following - patch, minor, major, pre-release"⟩
    else
      match getReleaseTypeOf f with
      | .error e => .error e
      | .ok rt =>
        .ok
          { ids := patterns
            snapped := f.snapped
            unmerged := f.unmerged
            editor := f.editor
            message := f.message
            releaseType := rt
            preReleaseId := getPreReleaseIdOf f
            ignoreIssues := f.ignoreIssues
            ignoreNewestVersion := f.ignoreNewestVersion
            skipTests := f.skipTests
            skipAutoTag := f.skipAutoTag
            build := f.build
            soft := f.soft
            persist := f.persist
            unmodified := resolvedUnmodified patterns f
            disableTagAndSnapPipelines := f.disableTagPipeline || f.disableDeployPipeline
            forceDeploy := f.forceDeploy
            incrementBy := f.incrementBy
            version := resolvedVersion f }

/-- Tag engine result, mirroring the fields of `TagResults` consumed by
`TagCmd.report`. -/
structure TagResults where
  taggedComponents : List BitId
  autoTaggedResults : List AutoTagEntry
  warnings : List String
  newComponents : List BitId
  isSoftTag : Bool
  publishedPackages : List String
deriving DecidableEq, Repr

/-- Membership of a component id in `newComponents` ignoring versions
(`newComponents.searchWithoutVersion`), modelled as name equality. -/
def searchWithoutVersion (ids : List BitId) (c : BitId) : Bool :=
  ids.any (fun n => n.name == c.name)

/-- Rendering of a tagged-components listing inside `TagCmd.report`
(`outputComponents` closure), attaching the auto-tagged dependents of
each component. -/
def outputTaggedComponents (comps : List BitId) (autoTaggedResults : List AutoTagEntry) : String :=
  String.intercalate "\n" (comps.map (fun component =>
    let base := "     > " ++ bitIdToString component
    let autoTag := autoTaggedResults.filter (fun r => r.triggeredBy.name == component.name)
    if autoTag.isEmpty then base
    else base ++ "\n       " ++ AUTO_TAGGED_MSG ++ ":\n            " ++
      String.intercalate "\n            " (autoTag.map (fun a => bitIdToString a.component))))

/-- Rendering part of `TagCmd.report` once the engine returned actual
results: warnings, the tagged-count headline, the new/changed component
sections, published packages and the soft-tag clarification.  Every path
returns a string. -/
def renderTagResults (results : TagResults) : String :=
  let changedComponents := results.taggedComponents.filter
    (fun c => !searchWithoutVersion results.newComponents c)
  let addedComponents := results.taggedComponents.filter
    (fun c => searchWithoutVersion results.newComponents c)
  let autoTaggedCount := results.autoTaggedResults.length
  let warningsOutput := if !results.warnings.isEmpty then
      chalkYellow (String.intercalate "\n" results.warnings) ++ "\n\n"
    else ""
  let tagExplanation := if results.isSoftTag then
      "\n(use \"bit tag --persist\" to persist the changes\")\n(use \"bit reset --soft\" to remove the soft-tags)\n"
    else
      "\n(use \"bit export [collection]\" to push these components to a remote\")\n(use \"bit reset\" to unstage versions)\n"
  let softTagLabel := if results.isSoftTag then "soft-tagged " else ""
  let outputIfExists := fun (label : String) (explanation : String) (components : List BitId) =>
    if components.isEmpty then ""
    else "\n" ++ chalkUnderline (softTagLabel ++ label) ++ "\n(" ++ explanation ++ ")\n" ++
      outputTaggedComponents components results.autoTaggedResults ++ "\n"
  let publishOutput := if results.publishedPackages.isEmpty then ""
    else "\n\n" ++ chalkGreen ("published the following " ++
        toString results.publishedPackages.length ++ " component(s) successfully\n") ++
      String.intercalate "\n" results.publishedPackages
  let newDesc := if results.isSoftTag then "set to be tagged first version for components"
    else "first version for components"
  let changedDesc := if results.isSoftTag then "components that set to get a version bump"
    else "components that got a version bump"
  let softTagClarification := if results.isSoftTag then
      chalkBold "keep in mind that this is a soft-tag (changes recorded to be tagged), to persist the changes use --persist flag"
    else ""
  warningsOutput ++
    chalkGreen (toString (results.taggedComponents.length + autoTaggedCount) ++
      " component(s) " ++ (if results.isSoftTag then "soft-" else "") ++ "tagged") ++
    tagExplanation ++
    outputIfExists "new components" newDesc addedComponents ++
    outputIfExists "changed components" changedDesc changedComponents ++
    publishOutput ++
    softTagClarification

/-- Embedding of `TagCmd.report`: pre-flight validation producing the
params, then the tag engine (passed as a function, since
`SnappingMain.tag` is an external collaborator of this command); an
absent engine result is reported as the distinct nothing-to-tag outcome,
a present result is rendered. -/
def tagCmdReport (engine : TagParams → Option TagResults)
    (patterns : List String) (f : TagFlags) : Except BitError String :=
  match tagCmdPreflight patterns f with
  | .error e => .error e
  | .ok p =>
    match engine p with
    | none => .ok (chalkYellow NOTHING_TO_TAG_MSG)
    | some results => .ok (renderTagResults results)

/-- A workspace component as seen by the tag engine model: an id and
whether it has pending (actual) changes. -/
structure WsComp where
  id : BitId
  modified : Bool
deriving DecidableEq, Repr

/-- Modelled from the spec: the candidate-resolution step of
`SnappingMain.tag` (not under src/).  Spec section 4.2: the engine
resolves the components with pending changes (or all of them when
`unmodified` is set); components with no actual change and `unmodified`
not set are excluded with no error, and when nothing remains the engine
yields no results at all — the NOTHING_TO_TAG outcome, not a thrown error
and not a per-component failure. -/
def tagEngineModel (workspace : List WsComp) (p : TagParams) : Option TagResults :=
  let candidates := workspace.filter (fun c => c.modified || p.unmodified)
  if candidates.isEmpty then none
  else
    some
      { taggedComponents := candidates.map (fun c => c.id)
        autoTaggedResults := []
        warnings := []
        newComponents := []
        isSoftTag := p.soft
        publishedPackages := [] }

deriving instance DecidableEq for Except

/-- A tag engine stub used by concrete witnesses. -/
def noTagEngine : TagParams → Option TagResults := fun _ => none

/-- An empty batch merge result used by concrete witnesses. -/
def emptyAVResults : ApplyVersionResults :=
  { components := none, failedComponents := none, removedComponents := none,
    version := none, resolvedComponents := none, abortedComponents := none,
    mergeSnapResults := none, mergeSnapError := none, leftUnresolvedConflicts := none,
    workspaceDepsUpdates := none }

/-- A merge engine stub used by concrete witnesses. -/
def constMergeEngine : MergeEngineArgs → ApplyVersionResults := fun _ => emptyAVResults

/-- The merge command's flags with every option at its source default. -/
def baseMergeFlags : MergeFlags :=
  { ours := false, theirs := false, manual := false, abort := false, resolve := false,
    build := false, noSnap := false, verbose := false, message := none,
    skipDependencyInstallation := false }

/-- The tag command's flags with every option at its source default. -/
def baseTagFlags : TagFlags :=
  { message := "", ver := none, all := .undef, editor := .str "", snapped := false,
    unmerged := false, patch := false, minor := false, major := false, preRelease := .undef,
    increment := none, prereleaseId := none, force := false,
    ignoreUnresolvedDependencies := none, ignoreIssues := .undef, ignoreNewestVersion := false,
    skipTests := false, skipAutoTag := false, scope := .undef, unmodified := false,
    build := none, soft := false, persist := false, disableDeployPipeline := false,
    disableTagPipeline := false, forceDeploy := false, incrementBy := 1 }

/-- Concrete tag flags exercising the deprecated aliases: the deprecated
scope flag carries a version string and the deprecated force flag is set. -/
def tagFlagsW : TagFlags :=
  { baseTagFlags with scope := StrBool.str "2.0.0", force := true }

/-- The params record that the tag pre-flight produces for `tagFlagsW`
with the pattern list containing one pattern. -/
def tagParamsW : TagParams :=
  { ids := ["comp1"], snapped := false, unmerged := false, editor := StrBool.str "",
    message := "", releaseType := "patch", preReleaseId := none, ignoreIssues := StrBool.undef,
    ignoreNewestVersion := false, skipTests := false, skipAutoTag := false, build := none,
    soft := false, persist := false, unmodified := true,
    disableTagAndSnapPipelines := false, forceDeploy := false, incrementBy := 1,
    version := some "2.0.0" }

/-- Concrete failed-components list: one legitimately unchanged component
and one genuine failure. -/
def fcsW : List FailedComponent :=
  [⟨⟨"scope/a", none⟩, "unchanged", true⟩, ⟨⟨"scope/b", none⟩, "broken", false⟩]

/-- Concrete merge report arguments carrying `fcsW`. -/
def mergeReportArgsW : MergeReportArgs :=
  { components := none, failedComponents := some fcsW, removedComponents := none,
    version := none, mergeSnapResults := none, mergeSnapError := none,
    leftUnresolvedConflicts := none, verbose := false, configMergeResults := none,
    workspaceDepsUpdates := none }

/-- A pre-flight error of the merge command propagates to the command
result unchanged, for any engine (the engine is never consulted). -/
theorem mergeCmdReport_of_preflight_error (buildOnCi : Bool) (ids : List String)
    (f : MergeFlags) (e : BitError)
    (h : mergeCmdPreflight buildOnCi ids f = Except.error e)
    (engine : MergeEngineArgs → ApplyVersionResults) :
    mergeCmdReport buildOnCi engine ids f = Except.error e := by
  simp [mergeCmdReport, h]

/-- A pre-flight error of the tag command propagates to the command
result unchanged, for any engine (the engine is never consulted). -/
theorem tagCmdReport_of_preflight_error (patterns : List String) (f : TagFlags) (e : BitError)
    (h : tagCmdPreflight patterns f = Except.error e)
    (engine : TagParams → Option TagResults) :
    tagCmdReport engine patterns f = Except.error e := by
  simp [tagCmdReport, h]

/-- C3: for every merge invocation that sets both the abort flag and the
resolve flag, the pre-flight validation of `MergeCmd.report` raises an
error, and the command result is that error for every merge engine — the
engine is never invoked, so no state changes occur first. -/
theorem abortResolveMutuallyExclusive (buildOnCi : Bool) (ids : List String)
    (f : MergeFlags) (engine : MergeEngineArgs → ApplyVersionResults)
    (ha : f.abort = true) (hr : f.resolve = true) :
    ∃ e, mergeCmdPreflight buildOnCi ids f = Except.error e ∧
      mergeCmdReport buildOnCi engine ids f = Except.error e := by
  have hpre : ∃ e, mergeCmdPreflight buildOnCi ids f = Except.error e := by
    unfold mergeCmdPreflight
    cases hs : getMergeStrategy f.ours f.theirs f.manual with
    | error e => exact ⟨e, rfl⟩
    | ok s =>
      exact ⟨⟨"unable to use \"abort\" and \"resolve\" flags together"⟩, by simp [ha, hr]⟩
  obtain ⟨e, he⟩ := hpre
  exact ⟨e, he, mergeCmdReport_of_preflight_error buildOnCi ids f e he engine⟩

/-- C3 witness: concrete invocation with both abort and resolve set. -/
theorem abortResolveMutuallyExclusiveWitness :
    ∃ e, mergeCmdPreflight true [] { baseMergeFlags with abort := true, resolve := true } = Except.error e ∧
      mergeCmdReport true constMergeEngine [] { baseMergeFlags with abort := true, resolve := true } = Except.error e :=
  abortResolveMutuallyExclusive true [] { baseMergeFlags with abort := true, resolve := true }
    constMergeEngine rfl rfl

/-- C9: for every merge invocation that sets the no-snap flag and also
supplies a (truthy) snap message, the pre-flight validation of
`MergeCmd.report` raises an error, and the command result is that error
for every merge engine — the engine is never invoked. -/
theorem noSnapMessageExclusive (buildOnCi : Bool) (ids : List String)
    (f : MergeFlags) (engine : MergeEngineArgs → ApplyVersionResults)
    (hn : f.noSnap = true) (hm : optStrTruthy f.message = true) :
    ∃ e, mergeCmdPreflight buildOnCi ids f = Except.error e ∧
      mergeCmdReport buildOnCi engine ids f = Except.error e := by
  have hpre : ∃ e, mergeCmdPreflight buildOnCi ids f = Except.error e := by
    unfold mergeCmdPreflight
    cases hs : getMergeStrategy f.ours f.theirs f.manual with
    | error e => exact ⟨e, rfl⟩
    | ok s =>
      cases har : f.abort && f.resolve with
      | true =>
        exact ⟨⟨"unable to use \"abort\" and \"resolve\" flags together"⟩, by simp [har]⟩
      | false =>
        exact ⟨⟨"unable to use \"noSnap\" and \"message\" flags together"⟩, by simp [har, hn, hm]⟩
  obtain ⟨e, he⟩ := hpre
  exact ⟨e, he, mergeCmdReport_of_preflight_error buildOnCi ids f e he engine⟩

/-- C9 witness: concrete invocation with no-snap and a message. -/
theorem noSnapMessageExclusiveWitness :
    ∃ e, mergeCmdPreflight true [] { baseMergeFlags with noSnap := true, message := some "custom" } = Except.error e ∧
      mergeCmdReport true constMergeEngine [] { baseMergeFlags with noSnap := true, message := some "custom" } = Except.error e :=
  noSnapMessageExclusive true [] { baseMergeFlags with noSnap := true, message := some "custom" }
    constMergeEngine rfl rfl

/-- C5: the merge strategies ours, theirs and manual are mutually
exclusive — selecting more than one side makes the pre-flight of
`MergeCmd.report` fail for every engine — and when no side is specified
the strategy resolved by `getMergeStrategy` defaults to manual (the
manual flag itself also yields manual, and a single ours/theirs flag
yields that side). -/
theorem mergeStrategyExclusiveDefaultManual (buildOnCi : Bool) (ids : List String)
    (f : MergeFlags) (engine : MergeEngineArgs → ApplyVersionResults) :
    ((f.ours && f.theirs || f.ours && f.manual || f.theirs && f.manual) = true →
      ∃ e, mergeCmdPreflight buildOnCi ids f = Except.error e ∧
        mergeCmdReport buildOnCi engine ids f = Except.error e) ∧
    (f.ours = false → f.theirs = false →
      getMergeStrategy f.ours f.theirs f.manual = Except.ok MergeStrategy.manual) ∧
    (f.ours = true → f.theirs = false → f.manual = false →
      getMergeStrategy f.ours f.theirs f.manual = Except.ok MergeStrategy.ours) ∧
    (f.ours = false → f.theirs = true → f.manual = false →
      getMergeStrategy f.ours f.theirs f.manual = Except.ok MergeStrategy.theirs) := by
  refine ⟨?_, ?_, ?_, ?_⟩
  · intro hconf
    have hpre : ∃ e, mergeCmdPreflight buildOnCi ids f = Except.error e := by
      unfold mergeCmdPreflight
      rw [show getMergeStrategy f.ours f.theirs f.manual =
        Except.error ⟨"please choose only one of the following: ours, theirs or manual"⟩ from by
          simp [getMergeStrategy, hconf]]
      exact ⟨_, rfl⟩
    obtain ⟨e, he⟩ := hpre
    exact ⟨e, he, mergeCmdReport_of_preflight_error buildOnCi ids f e he engine⟩
  · intro ho ht; simp [getMergeStrategy, ho, ht]
  · intro ho ht hm; simp [getMergeStrategy, ho, ht, hm]
  · intro ho ht hm; simp [getMergeStrategy, ho, ht, hm]

/-- C5 witness: conflicting sides are rejected on a concrete invocation,
and a flagless concrete invocation resolves to the manual strategy. -/
theorem mergeStrategyExclusiveDefaultManualWitness :
    (∃ e, mergeCmdPreflight true [] { baseMergeFlags with ours := true, theirs := true } = Except.error e ∧
      mergeCmdReport true constMergeEngine [] { baseMergeFlags with ours := true, theirs := true } = Except.error e) ∧
    getMergeStrategy false false false = Except.ok MergeStrategy.manual :=
  ⟨(mergeStrategyExclusiveDefaultManual true [] { baseMergeFlags with ours := true, theirs := true }
      constMergeEngine).1 rfl,
    (mergeStrategyExclusiveDefaultManual true [] baseMergeFlags constMergeEngine).2.1 rfl rfl⟩

/-- C1: in every batch merge, per-component failures do not abort the
batch and are not raised: the batch result records every failed
component in `failedComponents` with its `failureMessage`, the
`unchangedLegitimately` flag of such a record is true exactly when the
component's outcome was nothing-to-merge, successfully merged components
are returned alongside in `components` of the same structured result,
and the command layer renders any engine result as a plain (ok) string
rather than an error. -/
theorem mergeBatchCollectsFailures (outcomes : List ComponentMergeOutcome)
    (buildOnCi : Bool) (ids : List String) (f : MergeFlags)
    (engine : MergeEngineArgs → ApplyVersionResults) (args : MergeEngineArgs)
    (hok : mergeCmdPreflight buildOnCi ids f = Except.ok args) :
    ((batchMerge outcomes).failedComponents = some (outcomes.filterMap mergeOutcomeFailure) ∧
      (batchMerge outcomes).components = some (outcomes.filterMap mergeOutcomeSuccess)) ∧
    (∀ o ∈ outcomes, ∀ fc, mergeOutcomeFailure o = some fc →
      fc ∈ outcomes.filterMap mergeOutcomeFailure ∧
        (fc.unchangedLegitimately = true ↔ o = ComponentMergeOutcome.nothingToMerge fc.id)) ∧
    (∀ r, ComponentMergeOutcome.merged r ∈ outcomes →
      r ∈ outcomes.filterMap mergeOutcomeSuccess) ∧
    mergeCmdReport buildOnCi engine ids f = Except.ok (mergeCmdRender f.verbose (engine args)) := by
  refine ⟨⟨rfl, rfl⟩, ?_, ?_, ?_⟩
  · intro o ho fc hfc
    refine ⟨List.mem_filterMap.mpr ⟨o, ho, hfc⟩, ?_⟩
    cases o with
    | merged r => simp [mergeOutcomeFailure] at hfc
    | nothingToMerge id =>
      simp only [mergeOutcomeFailure] at hfc
      cases hfc
      simp
    | failed id msg =>
      simp only [mergeOutcomeFailure] at hfc
      cases hfc
      simp
  · intro r hr
    exact List.mem_filterMap.mpr ⟨ComponentMergeOutcome.merged r, hr, rfl⟩
  · simp [mergeCmdReport, hok]

/-- C1 witness: a concrete batch with one success, one legitimately
unchanged component and one genuine failure. -/
theorem mergeBatchCollectsFailuresWitness :
    ((batchMerge [ComponentMergeOutcome.merged ⟨⟨"scope/a", some "1.0.0"⟩, [("f.ts", FileStatus.modified)]⟩,
        ComponentMergeOutcome.nothingToMerge ⟨"scope/b", none⟩,
        ComponentMergeOutcome.failed ⟨"scope/c", none⟩ "target version not found"]).failedComponents =
      some ([ComponentMergeOutcome.merged ⟨⟨"scope/a", some "1.0.0"⟩, [("f.ts", FileStatus.modified)]⟩,
        ComponentMergeOutcome.nothingToMerge ⟨"scope/b", none⟩,
        ComponentMergeOutcome.failed ⟨"scope/c", none⟩ "target version not found"].filterMap mergeOutcomeFailure) ∧
      (batchMerge [ComponentMergeOutcome.merged ⟨⟨"scope/a", some "1.0.0"⟩, [("f.ts", FileStatus.modified)]⟩,
        ComponentMergeOutcome.nothingToMerge ⟨"scope/b", none⟩,
        ComponentMergeOutcome.failed ⟨"scope/c", none⟩ "target version not found"]).components =
      some ([ComponentMergeOutcome.merged ⟨⟨"scope/a", some "1.0.0"⟩, [("f.ts", FileStatus.modified)]⟩,
        ComponentMergeOutcome.nothingToMerge ⟨"scope/b", none⟩,
        ComponentMergeOutcome.failed ⟨"scope/c", none⟩ "target version not found"].filterMap mergeOutcomeSuccess)) ∧
    (∀ o ∈ [ComponentMergeOutcome.merged ⟨⟨"scope/a", some "1.0.0"⟩, [("f.ts", FileStatus.modified)]⟩,
        ComponentMergeOutcome.nothingToMerge ⟨"scope/b", none⟩,
        ComponentMergeOutcome.failed ⟨"scope/c", none⟩ "target version not found"],
      ∀ fc, mergeOutcomeFailure o = some fc →
        fc ∈ [ComponentMergeOutcome.merged ⟨⟨"scope/a", some "1.0.0"⟩, [("f.ts", FileStatus.modified)]⟩,
          ComponentMergeOutcome.nothingToMerge ⟨"scope/b", none⟩,
          ComponentMergeOutcome.failed ⟨"scope/c", none⟩ "target version not found"].filterMap mergeOutcomeFailure ∧
          (fc.unchangedLegitimately = true ↔ o = ComponentMergeOutcome.nothingToMerge fc.id)) ∧
    (∀ r, ComponentMergeOutcome.merged r ∈
        [ComponentMergeOutcome.merged ⟨⟨"scope/a", some "1.0.0"⟩, [("f.ts", FileStatus.modified)]⟩,
          ComponentMergeOutcome.nothingToMerge ⟨"scope/b", none⟩,
          ComponentMergeOutcome.failed ⟨"scope/c", none⟩ "target version not found"] →
      r ∈ [ComponentMergeOutcome.merged ⟨⟨"scope/a", some "1.0.0"⟩, [("f.ts", FileStatus.modified)]⟩,
        ComponentMergeOutcome.nothingToMerge ⟨"scope/b", none⟩,
        ComponentMergeOutcome.failed ⟨"scope/c", none⟩ "target version not found"].filterMap mergeOutcomeSuccess) ∧
    mergeCmdReport true constMergeEngine [] baseMergeFlags =
      Except.ok (mergeCmdRender false (constMergeEngine ⟨[], MergeStrategy.manual, false, false, false, none, false, false⟩)) :=
  mergeBatchCollectsFailures
    [ComponentMergeOutcome.merged ⟨⟨"scope/a", some "1.0.0"⟩, [("f.ts", FileStatus.modified)]⟩,
      ComponentMergeOutcome.nothingToMerge ⟨"scope/b", none⟩,
      ComponentMergeOutcome.failed ⟨"scope/c", none⟩ "target version not found"]
    true [] baseMergeFlags constMergeEngine
    ⟨[], MergeStrategy.manual, false, false, false, none, false, false⟩ rfl

/-- An `Except` value that is not ok is some error. -/
theorem exists_error_of_not_isOk {ε α : Type} (x : Except ε α) (h : x.isOk = false) :
    ∃ e, x = Except.error e := by
  cases x with
  | error e => exact ⟨e, rfl⟩
  | ok v => simp [Except.isOk, Except.toBool] at h

/-- Inversion of a successful tag pre-flight: the release type came from
`getReleaseTypeOf` and the params record is exactly the one assembled by
the command. -/
theorem tagCmdPreflight_ok_inv (patterns : List String) (f : TagFlags) (p : TagParams)
    (hok : tagCmdPreflight patterns f = Except.ok p) :
    ∃ rt, getReleaseTypeOf f = Except.ok rt ∧
      p = { ids := patterns, snapped := f.snapped, unmerged := f.unmerged, editor := f.editor,
            message := f.message, releaseType := rt, preReleaseId := getPreReleaseIdOf f,
            ignoreIssues := f.ignoreIssues, ignoreNewestVersion := f.ignoreNewestVersion,
            skipTests := f.skipTests, skipAutoTag := f.skipAutoTag, build := f.build,
            soft := f.soft, persist := f.persist,
            unmodified := resolvedUnmodified patterns f,
            disableTagAndSnapPipelines := f.disableTagPipeline || f.disableDeployPipeline,
            forceDeploy := f.forceDeploy, incrementBy := f.incrementBy,
            version := resolvedVersion f } := by
  simp only [tagCmdPreflight] at hok
  split_ifs at hok
  all_goals first
  | exact absurd hok (by simp)
  | (cases hrt : getReleaseTypeOf f with
     | error e => rw [hrt] at hok; exact absurd hok (by simp)
     | ok rt =>
       rw [hrt] at hok
       simp only [] at hok
       injection hok with h
       exact ⟨rt, rfl, h.symm⟩)

/-- C6: for every tag invocation where more than one of the explicit bump
flags (patch, minor, major, pre-release) is set simultaneously, the
pre-flight validation of `TagCmd.report` raises an error and the command
result is that error for every tag engine — the engine is never invoked,
so storage is untouched. -/
theorem conflictingBumpFlagsRejected (patterns : List String) (f : TagFlags)
    (engine : TagParams → Option TagResults)
    (hcnt : countReleaseFlags f > 1) :
    ∃ e, tagCmdPreflight patterns f = Except.error e ∧
      tagCmdReport engine patterns f = Except.error e := by
  have hko : (tagCmdPreflight patterns f).isOk = false := by
    unfold tagCmdPreflight
    by_cases h1 : f.ignoreUnresolvedDependencies.isSome
    · simp [h1, Except.isOk, Except.toBool]
    · by_cases h2 : f.ignoreIssues == StrBool.flag
      · simp [h1, h2, Except.isOk, Except.toBool]
      · by_cases h3 : (optStrTruthy f.prereleaseId &&
            (!optStrTruthy f.increment || f.increment == some "major" ||
              f.increment == some "minor" || f.increment == some "patch")) = true
        · simp [h1, h2, h3, Except.isOk, Except.toBool]
        · simp [h1, h2, h3, hcnt, Except.isOk, Except.toBool]
  obtain ⟨e, he⟩ := exists_error_of_not_isOk _ hko
  exact ⟨e, he, tagCmdReport_of_preflight_error patterns f e he engine⟩

/-- C6 witness: concrete invocation setting both patch and minor. -/
theorem conflictingBumpFlagsRejectedWitness :
    ∃ e, tagCmdPreflight [] { baseTagFlags with patch := true, minor := true } = Except.error e ∧
      tagCmdReport noTagEngine [] { baseTagFlags with patch := true, minor := true } = Except.error e :=
  conflictingBumpFlagsRejected [] { baseTagFlags with patch := true, minor := true }
    noTagEngine (by decide)

/-- When an explicit (truthy) increment level is given and release-type
resolution succeeds, the resolved release type is that increment level,
unchanged. -/
theorem getReleaseTypeOf_increment (f : TagFlags) (inc rt : String)
    (hinc : f.increment = some inc) (hne : inc ≠ "")
    (hrt : getReleaseTypeOf f = Except.ok rt) : rt = inc := by
  simp only [getReleaseTypeOf, hinc, optStrTruthy, Option.getD] at hrt
  rw [if_pos (by simpa using hne)] at hrt
  by_cases hmem : inc ∈ RELEASE_TYPES
  · rw [if_pos hmem] at hrt
    injection hrt with h
    exact h.symm
  · rw [if_neg hmem] at hrt
    exact absurd hrt (by simp)

/-- C7: for every tag invocation whose explicit release-type string is not
one of the seven valid release types, the pre-flight of `TagCmd.report`
raises an error for every engine (no mutation happens first); and a valid
release-type string is accepted and lands in the params unchanged. -/
theorem releaseTypeValidated (patterns : List String) (f : TagFlags)
    (engine : TagParams → Option TagResults) (inc : String)
    (hinc : f.increment = some inc) (hne : inc ≠ "") :
    (inc ∉ RELEASE_TYPES →
      ∃ e, tagCmdPreflight patterns f = Except.error e ∧
        tagCmdReport engine patterns f = Except.error e) ∧
    (∀ p, tagCmdPreflight patterns f = Except.ok p → p.releaseType = inc) := by
  constructor
  · intro hmem
    have hko : (tagCmdPreflight patterns f).isOk = false := by
      unfold tagCmdPreflight
      by_cases h1 : f.ignoreUnresolvedDependencies.isSome
      · simp [h1, Except.isOk, Except.toBool]
      · by_cases h2 : f.ignoreIssues == StrBool.flag
        · simp [h1, h2, Except.isOk, Except.toBool]
        · by_cases h3 : (optStrTruthy f.prereleaseId &&
              (!optStrTruthy f.increment || f.increment == some "major" ||
                f.increment == some "minor" || f.increment == some "patch")) = true
          · simp [h1, h2, h3, Except.isOk, Except.toBool]
          · by_cases h4 : countReleaseFlags f > 1
            · simp [h1, h2, h3, h4, Except.isOk, Except.toBool]
            · have hrt : (getReleaseTypeOf f).isOk = false := by
                simp only [getReleaseTypeOf, hinc, optStrTruthy, Option.getD]
                rw [if_pos (by simpa using hne), if_neg hmem]
                simp [Except.isOk, Except.toBool]
              simp only [h1, h2, h3, h4, if_neg, if_false]
              cases hg : getReleaseTypeOf f with
              | error e => simp [h1, h2, h3, h4, hg, Except.isOk, Except.toBool]
              | ok rt => rw [hg] at hrt; simp [Except.isOk, Except.toBool] at hrt
    obtain ⟨e, he⟩ := exists_error_of_not_isOk _ hko
    exact ⟨e, he, tagCmdReport_of_preflight_error patterns f e he engine⟩
  · intro p hok
    obtain ⟨rt, hrt, hp⟩ := tagCmdPreflight_ok_inv patterns f p hok
    subst hp
    exact getReleaseTypeOf_increment f inc rt hinc hne hrt

/-- C7 witness: an invalid release-type string is rejected on a concrete
invocation, and a valid one is passed through on another. -/
theorem releaseTypeValidatedWitness :
    (∃ e, tagCmdPreflight [] { baseTagFlags with increment := some "superpatch" } = Except.error e ∧
      tagCmdReport noTagEngine [] { baseTagFlags with increment := some "superpatch" } = Except.error e) ∧
    (∀ p, tagCmdPreflight [] { baseTagFlags with increment := some "preminor" } = Except.ok p →
      p.releaseType = "preminor") :=
  ⟨(releaseTypeValidated [] { baseTagFlags with increment := some "superpatch" } noTagEngine
      "superpatch" rfl (by decide)).1 (by decide),
    (releaseTypeValidated [] { baseTagFlags with increment := some "preminor" } noTagEngine
      "preminor" rfl (by decide)).2⟩


/-- C2: for every tag invocation that supplies a (truthy) prerelease
identifier while the release type the invocation resolves to is not
prerelease-capable, the pre-flight of `TagCmd.report` raises an error and
the command result is that error for every tag engine — the engine is
never invoked, so no partial state is left. -/
theorem prereleaseIdRequiresPrereleaseType (patterns : List String) (f : TagFlags)
    (engine : TagParams → Option TagResults)
    (hpre : optStrTruthy f.prereleaseId = true)
    (hcap : nominalReleaseType f ∉ PRERELEASE_CAPABLE) :
    ∃ e, tagCmdPreflight patterns f = Except.error e ∧
      tagCmdReport engine patterns f = Except.error e := by
  have hko : (tagCmdPreflight patterns f).isOk = false := by
    unfold tagCmdPreflight
    by_cases h1 : f.ignoreUnresolvedDependencies.isSome = true
    · rw [if_pos h1]; rfl
    · rw [if_neg h1]
      by_cases h2 : (f.ignoreIssues == StrBool.flag) = true
      · rw [if_pos h2]; rfl
      · rw [if_neg h2]
        cases hinc : f.increment with
        | none =>
          have hcond : (optStrTruthy f.prereleaseId &&
              (!optStrTruthy (none : Option String) || (none : Option String) == some "major" ||
                (none : Option String) == some "minor" || (none : Option String) == some "patch")) = true := by
            simp [hpre, show optStrTruthy (none : Option String) = false from rfl]
          rw [if_pos hcond]; rfl
        | some s =>
          by_cases hs : s = ""
          · subst hs
            have hcond : (optStrTruthy f.prereleaseId &&
                (!optStrTruthy (some "") || some "" == some "major" ||
                  some "" == some "minor" || some "" == some "patch")) = true := by
              simp [hpre, show optStrTruthy (some "") = false from by decide]
            rw [if_pos hcond]; rfl
          · have hnom : nominalReleaseType f = s := by
              simp [nominalReleaseType, hinc, optStrTruthy, hs]
            rw [hnom] at hcap
            simp only [PRERELEASE_CAPABLE, List.mem_cons, List.not_mem_nil, or_false,
              not_or] at hcap
            obtain ⟨hc1, hc2, hc3, hc4⟩ := hcap
            by_cases hmaj : s = "major"
            · subst hmaj
              have hcond : (optStrTruthy f.prereleaseId &&
                  (!optStrTruthy (some "major") || some "major" == some "major" ||
                    some "major" == some "minor" || some "major" == some "patch")) = true := by
                simp [hpre]
              rw [if_pos hcond]; rfl
            · by_cases hmin : s = "minor"
              · subst hmin
                have hcond : (optStrTruthy f.prereleaseId &&
                    (!optStrTruthy (some "minor") || some "minor" == some "major" ||
                      some "minor" == some "minor" || some "minor" == some "patch")) = true := by
                  simp [hpre]
                rw [if_pos hcond]; rfl
              · by_cases hpat : s = "patch"
                · subst hpat
                  have hcond : (optStrTruthy f.prereleaseId &&
                      (!optStrTruthy (some "patch") || some "patch" == some "major" ||
                        some "patch" == some "minor" || some "patch" == some "patch")) = true := by
                    simp [hpre]
                  rw [if_pos hcond]; rfl
                · have hmem : s ∉ RELEASE_TYPES := by
                    simp [RELEASE_TYPES, hmaj, hmin, hpat, hc1, hc2, hc3, hc4]
                  have hrt : getReleaseTypeOf f = Except.error
                      ⟨"invalid increment-level \"" ++ s ++
                        "\".\n  semver allows the following options only: major, premajor, minor, preminor, patch, prepatch, prerelease"⟩ := by
                    simp only [getReleaseTypeOf, hinc, optStrTruthy, Option.getD]
                    rw [if_pos (by simpa using hs), if_neg hmem]
                  have hcond : ¬ ((optStrTruthy f.prereleaseId &&
                      (!optStrTruthy (some s) || some s == some "major" ||
                        some s == some "minor" || some s == some "patch")) = true) := by
                    simp [optStrTruthy, hs, hmaj, hmin, hpat]
                  rw [if_neg hcond]
                  by_cases h4 : countReleaseFlags f > 1
                  · rw [if_pos h4]; rfl
                  · rw [if_neg h4, hrt]; rfl
  obtain ⟨e, he⟩ := exists_error_of_not_isOk _ hko
  exact ⟨e, he, tagCmdReport_of_preflight_error patterns f e he engine⟩

/-- C2 witness: a concrete invocation supplying a prerelease id with the
default (patch) release type. -/
theorem prereleaseIdRequiresPrereleaseTypeWitness :
    ∃ e, tagCmdPreflight [] { baseTagFlags with prereleaseId := some "dev" } = Except.error e ∧
      tagCmdReport noTagEngine [] { baseTagFlags with prereleaseId := some "dev" } = Except.error e :=
  prereleaseIdRequiresPrereleaseType [] { baseTagFlags with prereleaseId := some "dev" }
    noTagEngine (by decide) (by decide)

/-- C8: the release-type flags and deprecated aliases are resolved once at
the command boundary into the single params struct with a fixed
precedence: an explicit (truthy) increment level overrides the sugar
flags; with none of them given the release type is the default patch; a
string value of the deprecated all or scope flag becomes the explicit
version; the deprecated scope flag sets unmodified; and the deprecated
force flag with patterns sets unmodified. -/
theorem flagPrecedenceResolution (patterns : List String) (f : TagFlags) (p : TagParams)
    (hok : tagCmdPreflight patterns f = Except.ok p) :
    (∀ inc, f.increment = some inc → inc ≠ "" → p.releaseType = inc) ∧
    (optStrTruthy f.increment = false → f.patch = false → f.minor = false → f.major = false →
      f.preRelease.truthy = false → p.releaseType = "patch") ∧
    (∀ s, f.all = StrBool.str s → s ≠ "" → f.scope.truthy = false → p.version = some s) ∧
    (∀ s, f.scope = StrBool.str s → s ≠ "" → p.version = some s) ∧
    (f.scope.truthy = true → p.unmodified = true) ∧
    (f.force = true → patterns ≠ [] → p.unmodified = true) := by
  obtain ⟨rt, hrt, hp⟩ := tagCmdPreflight_ok_inv patterns f p hok
  subst hp
  refine ⟨?_, ?_, ?_, ?_, ?_, ?_⟩
  · intro inc hinc hne
    exact getReleaseTypeOf_increment f inc rt hinc hne hrt
  · intro hi hpa hmi hma hpr
    simp only [getReleaseTypeOf, hi, hpa, hmi, hma, hpr, Bool.false_eq_true, if_false,
      DEFAULT_BIT_RELEASE_TYPE] at hrt
    injection hrt with h
    exact h.symm
  · intro s hall hne hsc
    show resolvedVersion f = some s
    simp only [resolvedVersion, hall, hsc, Bool.false_eq_true, if_false]
    simp [StrBool.truthy, hne]
  · intro s hscope hne
    simp [resolvedVersion, hscope, StrBool.truthy, hne]
  · intro hsc
    show resolvedUnmodified patterns f = true
    cases hf : (f.force && !patterns.isEmpty) <;>
      simp [resolvedUnmodified, hf, hsc]
  · intro hforce hpats
    show resolvedUnmodified patterns f = true
    have hne : patterns.isEmpty = false := by
      cases patterns with
      | nil => exact absurd rfl hpats
      | cons a l => rfl
    simp [resolvedUnmodified, hforce, hne]

/-- C8 witness: a concrete invocation exercising the deprecated scope and
force aliases with a pattern and the default release type. -/
theorem flagPrecedenceResolutionWitness :
    (∀ s, StrBool.str "2.0.0" = StrBool.str s → s ≠ "" →
      (tagParamsW).version = some s) ∧
    ((tagFlagsW).scope.truthy = true → (tagParamsW).unmodified = true) ∧
    ((tagFlagsW).force = true → (["comp1"] : List String) ≠ [] → (tagParamsW).unmodified = true) ∧
    (optStrTruthy (tagFlagsW).increment = false → (tagParamsW).releaseType = "patch") := by
  have h := flagPrecedenceResolution ["comp1"] tagFlagsW tagParamsW (by decide)
  exact ⟨fun s hs hne => by cases hs; exact h.2.2.2.1 "2.0.0" rfl hne,
    fun hsc => h.2.2.2.2.1 hsc,
    fun hf hp => h.2.2.2.2.2 hf hp,
    fun hi => h.2.1 hi rfl rfl rfl rfl⟩

/-- C4: for every tag invocation where no workspace component has an
actual change and the unmodified option is not set, the components are
excluded without error — the engine yields no results and the command
reports the distinct nothing-to-tag outcome as a plain (ok) message, not
a thrown error and not a per-component failure. -/
theorem nothingToTagOutcome (patterns : List String) (f : TagFlags)
    (ws : List WsComp) (p : TagParams)
    (hok : tagCmdPreflight patterns f = Except.ok p)
    (hunmod : p.unmodified = false)
    (hnochange : ∀ c ∈ ws, c.modified = false) :
    tagEngineModel ws p = none ∧
    tagCmdReport (tagEngineModel ws) patterns f = Except.ok (chalkYellow NOTHING_TO_TAG_MSG) := by
  have hnone : tagEngineModel ws p = none := by
    unfold tagEngineModel
    have hfil : ws.filter (fun c => c.modified || p.unmodified) = [] := by
      rw [List.filter_eq_nil_iff]
      intro c hc
      simp [hnochange c hc, hunmod]
    simp [hfil]
  refine ⟨hnone, ?_⟩
  simp [tagCmdReport, hok, hnone]

/-- C4 witness: a concrete workspace with one unmodified component and a
default tag invocation. -/
theorem nothingToTagOutcomeWitness :
    tagEngineModel [⟨⟨"scope/a", none⟩, false⟩]
      { ids := [], snapped := false, unmerged := false, editor := StrBool.str "",
        message := "", releaseType := "patch", preReleaseId := none,
        ignoreIssues := StrBool.undef, ignoreNewestVersion := false, skipTests := false,
        skipAutoTag := false, build := none, soft := false, persist := false,
        unmodified := false, disableTagAndSnapPipelines := false, forceDeploy := false,
        incrementBy := 1, version := none } = none ∧
    tagCmdReport (tagEngineModel [⟨⟨"scope/a", none⟩, false⟩]) [] baseTagFlags =
      Except.ok (chalkYellow NOTHING_TO_TAG_MSG) :=
  nothingToTagOutcome [] baseTagFlags [⟨⟨"scope/a", none⟩, false⟩]
    { ids := [], snapped := false, unmerged := false, editor := StrBool.str "",
      message := "", releaseType := "patch", preReleaseId := none,
      ignoreIssues := StrBool.undef, ignoreNewestVersion := false, skipTests := false,
      skipAutoTag := false, build := none, soft := false, persist := false,
      unmodified := false, disableTagAndSnapPipelines := false, forceDeploy := false,
      incrementBy := 1, version := none }
    (by decide) rfl (by decide)

/-- The compacted failure listing keeps exactly the entries the verbosity
admits: with verbose every failure is listed, without it only the
non-legitimate ones. -/
theorem failureLines_eq (v : Bool) (l : List FailedComponent) :
    failureLines v l = (l.filter (fun f => v || !f.unchangedLegitimately)).map failLineText := by
  induction l with
  | nil => rfl
  | cons hd tl ih =>
    simp only [failureLines, List.map_cons, List.filterMap_cons, List.filter_cons] at ih ⊢
    cases hl : hd.unchangedLegitimately with
    | true =>
      cases v with
      | true => simpa [failureLine, hl] using ih
      | false => simpa [failureLine, hl] using ih
    | false =>
      cases v with
      | true => simpa [failureLine, hl] using ih
      | false => simpa [failureLine, hl] using ih

/-- The summary's two failure counters partition the failed components. -/
theorem totalUnchanged_add_totalFailed (l : List FailedComponent) :
    totalUnchanged l + totalFailed l = l.length := by
  induction l with
  | nil => rfl
  | cons hd tl ih =>
    cases hl : hd.unchangedLegitimately <;>
      simp only [totalUnchanged, totalFailed, List.filter_cons, hl, List.length_cons,
        Bool.not_true, Bool.not_false, if_true, if_false] at ih ⊢ <;>
      simp at ih ⊢ <;> omega

/-- C10: without verbose, every legitimately-unchanged failed component is
omitted from the per-component failure listing (the listing is exactly
the genuinely failed ones, while verbose lists all), and when every
failure is legitimate the section degrades to the count-only line; the
summary counters count legitimately-unchanged and genuinely-failed
components from the full failed list, and the summary section of the
rendered report does not depend on the verbosity flag. -/
theorem failureListingVerbosity (fcs : List FailedComponent) (a : MergeReportArgs) :
    (failureLines false fcs = (fcs.filter (fun f => !f.unchangedLegitimately)).map failLineText) ∧
    (failureLines true fcs = fcs.map failLineText) ∧
    (fcs ≠ [] → (∀ f ∈ fcs, f.unchangedLegitimately = true) →
      getFailureOutput false fcs = legitSkipLine fcs.length) ∧
    (totalUnchanged fcs + totalFailed fcs = fcs.length) ∧
    (totalFailed fcs = (failureLines false fcs).length) ∧
    (∀ v : Bool, ∃ rest : String,
      mergeReport { a with verbose := v } =
        rest ++ getSummary a.components a.failedComponents a.mergeSnapResults a.removedComponents) := by
  refine ⟨?_, ?_, ?_, totalUnchanged_add_totalFailed fcs, ?_, ?_⟩
  · simpa using failureLines_eq false fcs
  · simpa using failureLines_eq true fcs
  · intro hne hall
    have hempty : fcs.isEmpty = false := by
      cases fcs with
      | nil => exact absurd rfl hne
      | cons a l => rfl
    have hlines : failureLines false fcs = [] := by
      rw [failureLines_eq]
      have : fcs.filter (fun f => false || !f.unchangedLegitimately) = [] := by
        rw [List.filter_eq_nil_iff]
        intro f hf
        simp [hall f hf]
      rw [this, List.map_nil]
    have hemptyi : ("\n".intercalate ([] : List String)) = "" := rfl
    simp [getFailureOutput, hempty, hlines, hemptyi]
  · rw [failureLines_eq]
    simp [totalFailed]
  · intro v
    exact ⟨_, rfl⟩

/-- C10 witness: a concrete failed-components list with one legitimate and
one genuine failure, and a concrete report argument record. -/
theorem failureListingVerbosityWitness :
    (failureLines false fcsW =
      (fcsW.filter (fun f => !f.unchangedLegitimately)).map failLineText) ∧
    (failureLines true fcsW = fcsW.map failLineText) ∧
    (fcsW ≠ [] → (∀ f ∈ fcsW, f.unchangedLegitimately = true) →
      getFailureOutput false fcsW = legitSkipLine fcsW.length) ∧
    (totalUnchanged fcsW + totalFailed fcsW = fcsW.length) ∧
    (totalFailed fcsW = (failureLines false fcsW).length) ∧
    (∀ v : Bool, ∃ rest : String,
      mergeReport { mergeReportArgsW with verbose := v } =
        rest ++ getSummary mergeReportArgsW.components mergeReportArgsW.failedComponents
          mergeReportArgsW.mergeSnapResults mergeReportArgsW.removedComponents) :=
  failureListingVerbosity fcsW mergeReportArgsW
